import Mathlib

/-!
Verification of the disruption alternative finder in
`lambda_functions/analyze_disruption/lambda_function.py`.

The Python module is embedded shallowly:

* dates are parsed from `"YYYY-MM-DD"` strings (mirroring
  `datetime.strptime(original_date, "%Y-%m-%d")`) into an integer day
  number (days since the Unix epoch, via the standard civil-calendar
  formula), so that adding a day offset is integer addition;
* decimal price strings are modelled by their rational value `ℚ`
  (the code parses them with `float(...)` only to compare them);
* the external Amadeus search endpoint is an oracle
  `Int → DayResult` giving, per day offset, either a raised exception
  (network error or malformed payload — anything that makes
  `requests.get`, `response.json()` or the field extraction throw),
  a non-200 status, or a 200 response with a list of offers;
* exceptions are modelled with `Option`: `runScan` returns `none` for
  the candidate list when a day's call raised, and the enclosing
  `try/except` of `_search_alternative_flights` converts that to `[]`;
* token acquisition (`_get_amadeus_token`, called before the date is
  parsed) is modelled by a boolean `tokenOk`: `false` means the call
  raised.
-/

/-- One flight segment as extracted into `flight_info['segments']`
(lines 142–149 of the lambda). -/
structure Segment where
  departure : String
  arrival : String
  departure_time : String
  arrival_time : String
  carrier : String
  flight_number : String
deriving Repr, DecidableEq

/-- A raw segment of an Amadeus offer
(`segment['departure']['iataCode']`, `…['at']`, `carrierCode`, `number`). -/
structure RawSegment where
  dep_iata : String
  dep_at : String
  arr_iata : String
  arr_at : String
  carrierCode : String
  number : String
deriving Repr, DecidableEq

/-- A well-formed offer of the Amadeus `flight-offers` response:
`price.total` (as its rational value), `price.currency`, and the first
itinerary's `duration` and `segments`. -/
structure Offer where
  price_total : ℚ
  price_currency : String
  duration : String
  segments : List RawSegment
deriving Repr, DecidableEq

/-- The `price` sub-dictionary of a candidate (lines 133–136). -/
structure PriceInfo where
  total : ℚ
  currency : String
deriving Repr, DecidableEq

/-- One candidate alternative (`flight_info`, lines 130–139). The `date`
field holds the day number of the search date. -/
structure FlightInfo where
  date : Int
  date_offset_days : Int
  price : PriceInfo
  duration : String
  segments : List Segment
deriving Repr, DecidableEq

/-- Outcome of one day's call to the search endpoint:
`raised` covers a raised exception (network error, malformed response
payload), `badStatus` a response with `status_code ≠ 200`, and
`ok offers` a 200 response whose `data` list parses into `offers`. -/
inductive DayResult where
  | raised : DayResult
  | badStatus : DayResult
  | ok : List Offer → DayResult
deriving Repr, DecidableEq

/-- The query parameters of one `GET /v2/shopping/flight-offers` call
(lines 116–123); `departureDate` is the day number of the search date. -/
structure Query where
  originLocationCode : String
  destinationLocationCode : String
  departureDate : Int
  adults : Nat
  max : Nat
  currencyCode : String
deriving Repr, DecidableEq

/-- Numeric value of a decimal digit character. -/
def digitVal (c : Char) : Nat := c.toNat - '0'.toNat

/-- Gregorian leap-year test. -/
def isLeapYear (y : Nat) : Bool :=
  (y % 4 == 0 && y % 100 != 0) || y % 400 == 0

/-- Number of days in month `m` of year `y`. -/
def daysInMonth (y m : Nat) : Nat :=
  if m = 2 then (if isLeapYear y then 29 else 28)
  else if m = 4 ∨ m = 6 ∨ m = 9 ∨ m = 11 then 30
  else 31

/-- Day number (days since 1970-01-01) of the civil date `y-m-d`,
by the standard `days_from_civil` formula. -/
def daysFromCivil (y m d : Int) : Int :=
  let y2 : Int := if m ≤ 2 then y - 1 else y
  let era : Int := Int.fdiv y2 400
  let yoe : Int := y2 - era * 400
  let mp : Int := Int.emod (m + 9) 12
  let doy : Int := (153 * mp + 2) / 5 + d - 1
  let doe : Int := yoe * 365 + yoe / 4 - yoe / 100 + doy
  era * 146097 + doe - 719468

/-- `datetime.strptime(s, "%Y-%m-%d")` (line 103): returns the day
number of the parsed date, or `none` when the string is malformed or
not a valid calendar date (in the Python code this raises
`ValueError`). -/
def parseDate (s : String) : Option Int :=
  match s.toList with
  | [y1, y2, y3, y4, s1, m1, m2, s2, d1, d2] =>
    if y1.isDigit && y2.isDigit && y3.isDigit && y4.isDigit &&
       s1 == '-' && m1.isDigit && m2.isDigit && s2 == '-' &&
       d1.isDigit && d2.isDigit then
      let y := 1000 * digitVal y1 + 100 * digitVal y2 + 10 * digitVal y3 + digitVal y4
      let m := 10 * digitVal m1 + digitVal m2
      let d := 10 * digitVal d1 + digitVal d2
      if 1 ≤ m && m ≤ 12 && 1 ≤ d && d ≤ daysInMonth y m then
        some (daysFromCivil (↑y) (↑m) (↑d))
      else none
    else none
  | _ => none

/-- The ascending list of day offsets `range(-days_range, days_range + 1)`
(line 108). -/
def offsetRange (d : Nat) : List Int :=
  (List.range (2 * d + 1)).map (fun (i : Nat) => (i : Int) - (d : Int))

/-- The query parameters built for one day offset (lines 116–123):
origin and destination upper-cased, `adults=1`, `max=3`,
`currencyCode=USD`, and the departure date `original date + offset`. -/
def mkQuery (origin destination : String) (d0 off : Int) : Query :=
  { originLocationCode := origin.toUpper
    destinationLocationCode := destination.toUpper
    departureDate := d0 + off
    adults := 1
    max := 3
    currencyCode := "USD" }

/-- Extraction of `flight_info` records from a 200 response (lines
129–151): at most the first 3 offers, each tagged with the search date
and the day offset. -/
def extractOffers (d0 off : Int) (offers : List Offer) : List FlightInfo :=
  (offers.take 3).map (fun o =>
    { date := d0 + off
      date_offset_days := off
      price := { total := o.price_total, currency := o.price_currency }
      duration := o.duration
      segments := o.segments.map (fun s =>
        { departure := s.dep_iata
          arrival := s.arr_iata
          departure_time := s.dep_at
          arrival_time := s.arr_at
          carrier := s.carrierCode
          flight_number := s.number }) })

/-- The candidates a single day offset contributes to
`all_alternatives`: the extracted offers on a 200 response, nothing on
a non-200 response, and nothing (here; the raise is handled by
`runScan`) on a raised exception. -/
def dayCandidates (oracle : Int → DayResult) (d0 off : Int) : List FlightInfo :=
  match oracle off with
  | DayResult.ok offers => extractOffers d0 off offers
  | _ => []

/-- The aggregate `all_alternatives` list collected over a list of
offsets, assuming no call raised. -/
def aggregateOver (oracle : Int → DayResult) (d0 : Int) (offs : List Int) : List FlightInfo :=
  offs.foldr (fun off acc => dayCandidates oracle d0 off ++ acc) []

/-- The full aggregate candidate list of a scan with `days_range = d`
(the value of `all_alternatives` after the loop, before sort and
truncation), assuming no call raised. -/
def aggregateOf (oracle : Int → DayResult) (d0 : Int) (d : Nat) : List FlightInfo :=
  aggregateOver oracle d0 (offsetRange d)

/-- The scan loop (lines 108–151). For each offset in order, a query is
issued; a raised exception aborts the loop (the candidate list becomes
`none` and the remaining offsets are not queried), a non-200 response
contributes nothing, and a 200 response contributes its extracted
offers. Returns the queries issued and, when no call raised, the
aggregate candidate list. -/
def runScan (oracle : Int → DayResult) (origin destination : String) (d0 : Int) :
    List Int → List Query × Option (List FlightInfo)
  | [] => ([], some [])
  | off :: rest =>
    let q := mkQuery origin destination d0 off
    match oracle off with
    | DayResult.raised => ([q], none)
    | DayResult.badStatus =>
      let r := runScan oracle origin destination d0 rest
      (q :: r.1, r.2)
    | DayResult.ok offers =>
      let r := runScan oracle origin destination d0 rest
      (q :: r.1, r.2.map (fun alts => extractOffers d0 off offers ++ alts))

/-- The comparison used by `all_alternatives.sort(key=lambda x:
(abs(x['date_offset_days']), float(x['price']['total'])))` (line 154):
lexicographic on (|offset|, price). Python's `list.sort` is a stable
sort by this key; it is embedded below as `List.insertionSort altR`,
which is stable. -/
def altR (a b : FlightInfo) : Prop :=
  a.date_offset_days.natAbs < b.date_offset_days.natAbs ∨
    (a.date_offset_days.natAbs = b.date_offset_days.natAbs ∧
      a.price.total ≤ b.price.total)

instance decAltR : DecidableRel altR := fun a b => by
  unfold altR; infer_instance

instance totalAltR : IsTotal FlightInfo altR where
  total a b := by
    unfold altR
    rcases Nat.lt_trichotomy a.date_offset_days.natAbs b.date_offset_days.natAbs with h | h | h
    · exact Or.inl (Or.inl h)
    · rcases le_total a.price.total b.price.total with hp | hp
      · exact Or.inl (Or.inr ⟨h, hp⟩)
      · exact Or.inr (Or.inr ⟨h.symm, hp⟩)
    · exact Or.inr (Or.inl h)

instance transAltR : IsTrans FlightInfo altR where
  trans a b c hab hbc := by
    unfold altR at *
    rcases hab with h1 | ⟨h1, p1⟩
    · rcases hbc with h2 | ⟨h2, _⟩
      · exact Or.inl (h1.trans h2)
      · exact Or.inl (h2 ▸ h1)
    · rcases hbc with h2 | ⟨h2, p2⟩
      · exact Or.inl (h1 ▸ h2)
      · exact Or.inr ⟨h1.trans h2, p1.trans p2⟩

/-- The tail of `_search_alternative_flights` applied to a finished
scan: when the scan raised, the `except` handler returns `[]` (lines
158–160); otherwise the aggregate is sorted by `altR` and truncated to
the first 10 candidates (lines 153–156). -/
def scanOutcome (sc : List Query × Option (List FlightInfo)) :
    List Query × List FlightInfo :=
  match sc with
  | (qs, none) => (qs, [])
  | (qs, some alts) => (qs, (List.insertionSort altR alts).take 10)

/-- `_search_alternative_flights` (lines 92–160). Returns the list of
queries issued and the returned alternatives list. The enclosing
`try/except` catches every exception — token acquisition failure
(`tokenOk = false`), a malformed `original_date`, or a raise during the
scan — and returns `[]`. On success the aggregate is sorted stably by
`altR` and truncated to the first 10 candidates. -/
def searchAlternativeFlights (oracle : Int → DayResult) (tokenOk : Bool)
    (origin destination original_date : String) (days_range : Nat) :
    List Query × List FlightInfo :=
  if tokenOk then
    match parseDate original_date with
    | none => ([], [])
    | some d0 => scanOutcome (runScan oracle origin destination d0 (offsetRange days_range))
  else ([], [])

/-- The `price_range` dictionary (lines 238–242). -/
structure PriceRange where
  min : ℚ
  max : ℚ
  currency : String
deriving Repr, DecidableEq

/-- One recommendation category (lines 210–234). -/
structure Category where
  category : String
  priority : String
  count : Nat
  flights : List FlightInfo
  note : String
deriving Repr, DecidableEq

/-- The dictionary returned by `analyze_disruption`. The keys `success`,
`message`, `original_flight`, `disruption_reason` and `recommendations`
are present in every returned dictionary; the remaining keys only
appear in the successful shape and are modelled with `Option`. -/
structure AnalysisResult where
  success : Bool
  message : String
  original_flight : String
  origin : Option String
  destination : Option String
  original_date : Option String
  disruption_reason : String
  total_alternatives : Option Nat
  price_range : Option PriceRange
  recommendations : List Category
deriving Repr, DecidableEq

/-- The "no alternatives found" dictionary (lines 193–199). -/
def noAlternativesResult (original_flight disruption_reason : String) : AnalysisResult :=
  { success := false
    message := "Unable to find alternative flights"
    original_flight := original_flight
    origin := none
    destination := none
    original_date := none
    disruption_reason := disruption_reason
    total_alternatives := none
    price_range := none
    recommendations := [] }

/-- `min` of a non-empty list of rationals (Python's `min(all_prices)`);
the `[]` case is unreachable in context. -/
def listMinQ : List ℚ → ℚ
  | [] => 0
  | p :: ps => ps.foldl min p

/-- `max` of a non-empty list of rationals (Python's `max(all_prices)`). -/
def listMaxQ : List ℚ → ℚ
  | [] => 0
  | p :: ps => ps.foldl max p

/-- The `same_day` bucket (line 202): candidates with offset 0. -/
def sameDayBucket (alternatives : List FlightInfo) : List FlightInfo :=
  alternatives.filter (fun f => decide (f.date_offset_days = 0))

/-- The `next_day` bucket (line 203): candidates with offset 1. -/
def nextDayBucket (alternatives : List FlightInfo) : List FlightInfo :=
  alternatives.filter (fun f => decide (f.date_offset_days = 1))

/-- The `other_days` bucket (line 204): candidates with |offset| > 1. -/
def otherDaysBucket (alternatives : List FlightInfo) : List FlightInfo :=
  alternatives.filter (fun f => decide (1 < f.date_offset_days.natAbs))

/-- The "Same Day Alternatives" category (lines 210–216). -/
def sameDayCat (alternatives : List FlightInfo) : Category :=
  { category := "Same Day Alternatives"
    priority := "HIGH"
    count := (sameDayBucket alternatives).length
    flights := (sameDayBucket alternatives).take 3
    note := "Book quickly - same-day flights fill up fast" }

/-- The "Next Day Options" category (lines 219–225). -/
def nextDayCat (alternatives : List FlightInfo) : Category :=
  { category := "Next Day Options"
    priority := "MEDIUM"
    count := (nextDayBucket alternatives).length
    flights := (nextDayBucket alternatives).take 3
    note := "Good availability for next-day travel" }

/-- The "Alternative Dates" category (lines 228–234). -/
def altDatesCat (alternatives : List FlightInfo) : Category :=
  { category := "Alternative Dates"
    priority := "LOW"
    count := (otherDaysBucket alternatives).length
    flights := (otherDaysBucket alternatives).take 4
    note := "More flexible dates with better pricing" }

/-- The categorized recommendation list (lines 201–234), built from the
returned (truncated) alternatives list: one category per non-empty
bucket, in the fixed order same-day, next-day, alternative dates. -/
def buildRecommendations (alternatives : List FlightInfo) : List Category :=
  (if (sameDayBucket alternatives).isEmpty then [] else [sameDayCat alternatives]) ++
  (if (nextDayBucket alternatives).isEmpty then [] else [nextDayCat alternatives]) ++
  (if (otherDaysBucket alternatives).isEmpty then [] else [altDatesCat alternatives])

/-- `analyze_disruption` (lines 163–264). Calls the finder with
`days_range = 3`, returns the "no alternatives" dictionary when the
returned list is empty, and otherwise the successful dictionary with
categories, price range and `total_alternatives`. -/
def analyzeDisruption (oracle : Int → DayResult) (tokenOk : Bool)
    (original_flight origin destination original_date disruption_reason : String) :
    AnalysisResult :=
  let alternatives :=
    (searchAlternativeFlights oracle tokenOk origin destination original_date 3).2
  if alternatives.isEmpty then
    noAlternativesResult original_flight disruption_reason
  else
    let all_prices := alternatives.map (fun f => f.price.total)
    { success := true
      message := "Found " ++ toString alternatives.length ++
        " alternative flights for disrupted flight " ++ original_flight
      original_flight := original_flight
      origin := some origin.toUpper
      destination := some destination.toUpper
      original_date := some original_date
      disruption_reason := disruption_reason
      total_alternatives := some alternatives.length
      price_range := some
        { min := listMinQ all_prices
          max := listMaxQ all_prices
          currency := "USD" }
      recommendations := buildRecommendations alternatives }

/-! ### Concrete inputs used to exercise the functions -/

/-- An offer with the given price and no segments. -/
def mkOffer (p : ℚ) : Offer :=
  { price_total := p, price_currency := "USD", duration := "PT6H15M", segments := [] }

/-- An oracle on which every one of the 7 queried days (for
`days_range = 3`) returns exactly 3 offers, all 21 prices distinct:
the spec scenario behind the `total_alternatives = 21` claim. -/
def oracle21 : Int → DayResult := fun off =>
  if off = 0 then DayResult.ok [mkOffer 100, mkOffer 101, mkOffer 102]
  else if off = -1 then DayResult.ok [mkOffer 110, mkOffer 111, mkOffer 112]
  else if off = 1 then DayResult.ok [mkOffer 113, mkOffer 114, mkOffer 115]
  else if off = -2 then DayResult.ok [mkOffer 200, mkOffer 201, mkOffer 202]
  else if off = 2 then DayResult.ok [mkOffer 203, mkOffer 204, mkOffer 205]
  else if off = -3 then DayResult.ok [mkOffer 300, mkOffer 301, mkOffer 302]
  else DayResult.ok [mkOffer 303, mkOffer 304, mkOffer 305]

/-- An oracle whose offset −3 call succeeds with one offer and whose
offset −2 call raises (network error). -/
def oracleRaiseMid : Int → DayResult := fun off =>
  if off = -3 then DayResult.ok [mkOffer 100]
  else if off = -2 then DayResult.raised
  else DayResult.ok [mkOffer 50]

/-- An oracle on which only offset 0 succeeds; every other day returns
a non-200 status. -/
def oracleOneBad : Int → DayResult := fun off =>
  if off = 0 then DayResult.ok [mkOffer 100] else DayResult.badStatus

/-- An oracle on which every day returns a non-200 status. -/
def oracleAllBad : Int → DayResult := fun _ => DayResult.badStatus

/-- An oracle with one offer on the original date and one cheaper-day
offer exactly one day before it. -/
def oracleNeg1 : Int → DayResult := fun off =>
  if off = 0 then DayResult.ok [mkOffer 100]
  else if off = -1 then DayResult.ok [mkOffer 120]
  else DayResult.badStatus

/-- The candidate produced by `oracleNeg1` at offset −1 for original
date 2025-12-15 (day number 20437). -/
def flightNeg1 : FlightInfo :=
  { date := 20436
    date_offset_days := -1
    price := { total := 120, currency := "USD" }
    duration := "PT6H15M"
    segments := [] }

/-! ### Helper lemmas about the scan -/

theorem offsetRange_length (d : Nat) : (offsetRange d).length = 2 * d + 1 := by
  unfold offsetRange
  rw [List.length_map, List.length_range]

theorem mem_offsetRange {d : Nat} {off : Int} :
    off ∈ offsetRange d ↔ -(d : Int) ≤ off ∧ off ≤ (d : Int) := by
  unfold offsetRange
  rw [List.mem_map]
  constructor
  · rintro ⟨i, hi, rfl⟩
    rw [List.mem_range] at hi
    omega
  · rintro ⟨h1, h2⟩
    refine ⟨(off + d).toNat, ?_, ?_⟩
    · rw [List.mem_range]; omega
    · omega

theorem runScan_eq_of_no_raise (oracle : Int → DayResult) (origin destination : String)
    (d0 : Int) : ∀ offs : List Int, (∀ off ∈ offs, oracle off ≠ DayResult.raised) →
    runScan oracle origin destination d0 offs =
      (offs.map (mkQuery origin destination d0), some (aggregateOver oracle d0 offs))
  | [], _ => rfl
  | off :: rest, h => by
    have hoff := h off (List.mem_cons_self off rest)
    have ih := runScan_eq_of_no_raise oracle origin destination d0 rest
      (fun o ho => h o (List.mem_cons_of_mem _ ho))
    cases hx : oracle off with
    | raised => exact absurd hx hoff
    | badStatus => simp [runScan, hx, ih, aggregateOver, dayCandidates]
    | ok offers => simp [runScan, hx, ih, aggregateOver, dayCandidates]

theorem runScan_snd_none_of_raise (oracle : Int → DayResult) (origin destination : String)
    (d0 : Int) : ∀ offs : List Int, (∃ off ∈ offs, oracle off = DayResult.raised) →
    (runScan oracle origin destination d0 offs).2 = none
  | [], h => by simp at h
  | off :: rest, h => by
    cases hx : oracle off with
    | raised => simp [runScan, hx]
    | badStatus =>
      have hrest : ∃ o ∈ rest, oracle o = DayResult.raised := by
        obtain ⟨o, ho, hr⟩ := h
        rcases List.mem_cons.mp ho with rfl | ho'
        · rw [hx] at hr; cases hr
        · exact ⟨o, ho', hr⟩
      have ih := runScan_snd_none_of_raise oracle origin destination d0 rest hrest
      simp [runScan, hx, ih]
    | ok offers =>
      have hrest : ∃ o ∈ rest, oracle o = DayResult.raised := by
        obtain ⟨o, ho, hr⟩ := h
        rcases List.mem_cons.mp ho with rfl | ho'
        · rw [hx] at hr; cases hr
        · exact ⟨o, ho', hr⟩
      have ih := runScan_snd_none_of_raise oracle origin destination d0 rest hrest
      simp [runScan, hx, ih]

theorem search_eq_of_no_raise (oracle : Int → DayResult)
    (origin destination original_date : String) (d : Nat) (d0 : Int)
    (hDate : parseDate original_date = some d0)
    (hNoRaise : ∀ off ∈ offsetRange d, oracle off ≠ DayResult.raised) :
    searchAlternativeFlights oracle true origin destination original_date d =
      ((offsetRange d).map (mkQuery origin destination d0),
        (List.insertionSort altR (aggregateOf oracle d0 d)).take 10) := by
  have hrun := runScan_eq_of_no_raise oracle origin destination d0 (offsetRange d) hNoRaise
  unfold searchAlternativeFlights
  rw [if_pos rfl, hDate]
  show scanOutcome (runScan oracle origin destination d0 (offsetRange d)) = _
  rw [hrun]
  rfl

theorem search_eq_of_token_fail (oracle : Int → DayResult)
    (origin destination original_date : String) (d : Nat) :
    searchAlternativeFlights oracle false origin destination original_date d = ([], []) := by
  simp [searchAlternativeFlights]

theorem search_eq_of_parse_none (oracle : Int → DayResult) (tokenOk : Bool)
    (origin destination original_date : String) (d : Nat)
    (hBad : parseDate original_date = none) :
    searchAlternativeFlights oracle tokenOk origin destination original_date d = ([], []) := by
  cases tokenOk <;> simp [searchAlternativeFlights, hBad]

theorem search_snd_nil_of_raise (oracle : Int → DayResult)
    (origin destination original_date : String) (d : Nat) (d0 : Int)
    (hDate : parseDate original_date = some d0)
    (hRaise : ∃ off ∈ offsetRange d, oracle off = DayResult.raised) :
    (searchAlternativeFlights oracle true origin destination original_date d).2 = [] := by
  have h2 := runScan_snd_none_of_raise oracle origin destination d0 (offsetRange d) hRaise
  unfold searchAlternativeFlights
  rw [if_pos rfl, hDate]
  show (scanOutcome (runScan oracle origin destination d0 (offsetRange d))).2 = []
  rcases hrs : runScan oracle origin destination d0 (offsetRange d) with ⟨qs, r⟩
  rw [hrs] at h2
  cases r with
  | none => rfl
  | some alts => cases h2

theorem analyze_of_search_nil (oracle : Int → DayResult) (tokenOk : Bool)
    (original_flight origin destination original_date disruption_reason : String)
    (hnil : (searchAlternativeFlights oracle tokenOk origin destination original_date 3).2 = []) :
    analyzeDisruption oracle tokenOk original_flight origin destination original_date
      disruption_reason = noAlternativesResult original_flight disruption_reason := by
  unfold analyzeDisruption
  rw [hnil]
  rfl

theorem aggregateOver_nil_of_empty (oracle : Int → DayResult) (d0 : Int) :
    ∀ offs : List Int,
    (∀ off ∈ offs, oracle off = DayResult.badStatus ∨ oracle off = DayResult.ok []) →
    aggregateOver oracle d0 offs = []
  | [], _ => rfl
  | off :: rest, h => by
    have ih := aggregateOver_nil_of_empty oracle d0 rest
      (fun o ho => h o (List.mem_cons_of_mem _ ho))
    have hday : dayCandidates oracle d0 off = [] := by
      rcases h off (List.mem_cons_self off rest) with hx | hx <;>
        simp [dayCandidates, hx, extractOffers]
    simp [aggregateOver, List.foldr_cons, hday]
    exact ih

/-! ### Helper lemmas about min and max of price lists -/

theorem foldl_min_choice : ∀ (t : List ℚ) (a : ℚ), t.foldl min a = a ∨ t.foldl min a ∈ t
  | [], _ => Or.inl rfl
  | b :: t, a => by
    rw [List.foldl_cons]
    rcases foldl_min_choice t (min a b) with h | h
    · rcases min_choice a b with h2 | h2
      · exact Or.inl (by rw [h, h2])
      · exact Or.inr (by rw [h, h2]; exact List.mem_cons_self b t)
    · exact Or.inr (List.mem_cons_of_mem b h)

theorem foldl_min_le : ∀ (t : List ℚ) (a x : ℚ), x = a ∨ x ∈ t → t.foldl min a ≤ x
  | [], a, x, h => by
    rcases h with rfl | h
    · exact le_refl x
    · cases h
  | b :: t, a, x, h => by
    rw [List.foldl_cons]
    rcases h with h | h
    · rw [h]
      exact le_trans (foldl_min_le t (min a b) (min a b) (Or.inl rfl)) (min_le_left a b)
    · rcases List.mem_cons.mp h with h | h'
      · rw [h]
        exact le_trans (foldl_min_le t (min a b) (min a b) (Or.inl rfl)) (min_le_right a b)
      · exact foldl_min_le t (min a b) x (Or.inr h')

theorem foldl_max_choice : ∀ (t : List ℚ) (a : ℚ), t.foldl max a = a ∨ t.foldl max a ∈ t
  | [], _ => Or.inl rfl
  | b :: t, a => by
    rw [List.foldl_cons]
    rcases foldl_max_choice t (max a b) with h | h
    · rcases max_choice a b with h2 | h2
      · exact Or.inl (by rw [h, h2])
      · exact Or.inr (by rw [h, h2]; exact List.mem_cons_self b t)
    · exact Or.inr (List.mem_cons_of_mem b h)

theorem foldl_max_ge : ∀ (t : List ℚ) (a x : ℚ), x = a ∨ x ∈ t → x ≤ t.foldl max a
  | [], a, x, h => by
    rcases h with rfl | h
    · exact le_refl x
    · cases h
  | b :: t, a, x, h => by
    rw [List.foldl_cons]
    rcases h with h | h
    · rw [h]
      exact le_trans (le_max_left a b) (foldl_max_ge t (max a b) (max a b) (Or.inl rfl))
    · rcases List.mem_cons.mp h with h | h'
      · rw [h]
        exact le_trans (le_max_right a b) (foldl_max_ge t (max a b) (max a b) (Or.inl rfl))
      · exact foldl_max_ge t (max a b) x (Or.inr h')

theorem listMinQ_mem {l : List ℚ} (h : l ≠ []) : listMinQ l ∈ l := by
  cases l with
  | nil => exact absurd rfl h
  | cons p ps =>
    show ps.foldl min p ∈ p :: ps
    rcases foldl_min_choice ps p with h2 | h2
    · rw [h2]; exact List.mem_cons_self p ps
    · exact List.mem_cons_of_mem p h2

theorem listMinQ_le {l : List ℚ} {x : ℚ} (hx : x ∈ l) : listMinQ l ≤ x := by
  cases l with
  | nil => cases hx
  | cons p ps =>
    show ps.foldl min p ≤ x
    rcases List.mem_cons.mp hx with rfl | h'
    · exact foldl_min_le ps x x (Or.inl rfl)
    · exact foldl_min_le ps p x (Or.inr h')

theorem listMaxQ_mem {l : List ℚ} (h : l ≠ []) : listMaxQ l ∈ l := by
  cases l with
  | nil => exact absurd rfl h
  | cons p ps =>
    show ps.foldl max p ∈ p :: ps
    rcases foldl_max_choice ps p with h2 | h2
    · rw [h2]; exact List.mem_cons_self p ps
    · exact List.mem_cons_of_mem p h2

theorem listMaxQ_ge {l : List ℚ} {x : ℚ} (hx : x ∈ l) : x ≤ listMaxQ l := by
  cases l with
  | nil => cases hx
  | cons p ps =>
    show x ≤ ps.foldl max p
    rcases List.mem_cons.mp hx with rfl | h'
    · exact foldl_max_ge ps x x (Or.inl rfl)
    · exact foldl_max_ge ps p x (Or.inr h')

/-! ### Helper lemmas about the sort order and the categories -/

theorem altR_imp (a b : FlightInfo) (h : altR a b) :
    a.date_offset_days.natAbs ≤ b.date_offset_days.natAbs ∧
      (a.date_offset_days.natAbs = b.date_offset_days.natAbs →
        a.price.total ≤ b.price.total) := by
  rcases h with h | ⟨h, hp⟩
  · exact ⟨Nat.le_of_lt h, fun he => absurd he (Nat.ne_of_lt h)⟩
  · exact ⟨Nat.le_of_eq h, fun _ => hp⟩

theorem ne_nil_of_isEmpty_ne {α : Type} {l : List α} (h : ¬ l.isEmpty = true) :
    l ≠ [] := by
  cases l with
  | nil => exact absurd rfl h
  | cons a t => exact fun hx => List.noConfusion hx

theorem mem_buildRecommendations {alts : List FlightInfo} {c : Category}
    (hc : c ∈ buildRecommendations alts) :
    (c = sameDayCat alts ∧ sameDayBucket alts ≠ []) ∨
    (c = nextDayCat alts ∧ nextDayBucket alts ≠ []) ∨
    (c = altDatesCat alts ∧ otherDaysBucket alts ≠ []) := by
  unfold buildRecommendations at hc
  split_ifs at hc with h1 h2 h3 <;>
    simp only [List.mem_append, List.mem_cons, List.not_mem_nil, or_false,
      false_or, List.nil_append, List.append_nil] at hc
  all_goals
    try rcases hc with hc | hc
  all_goals
    try rcases hc with hc | hc
  all_goals simp_all [ne_nil_of_isEmpty_ne]

theorem buildRecommendations_order (alts : List FlightInfo) :
    List.Sublist ((buildRecommendations alts).map (fun c => c.category))
      ["Same Day Alternatives", "Next Day Options", "Alternative Dates"] := by
  unfold buildRecommendations
  split_ifs <;> simp [sameDayCat, nextDayCat, altDatesCat]

theorem buildRecommendations_no_minus_one {alts : List FlightInfo} {c : Category}
    {f : FlightInfo} (hc : c ∈ buildRecommendations alts)
    (hoff : f.date_offset_days = -1) : f ∉ c.flights := by
  intro hf
  rcases mem_buildRecommendations hc with ⟨rfl, _⟩ | ⟨rfl, _⟩ | ⟨rfl, _⟩
  · have hmem : f ∈ sameDayBucket alts := List.take_subset 3 _ hf
    have := (List.mem_filter.mp hmem).2
    rw [hoff] at this
    exact absurd (of_decide_eq_true this) (by decide)
  · have hmem : f ∈ nextDayBucket alts := List.take_subset 3 _ hf
    have := (List.mem_filter.mp hmem).2
    rw [hoff] at this
    exact absurd (of_decide_eq_true this) (by decide)
  · have hmem : f ∈ otherDaysBucket alts := List.take_subset 4 _ hf
    have := (List.mem_filter.mp hmem).2
    rw [hoff] at this
    exact absurd (of_decide_eq_true this) (by decide)

/-! ### The success-path shape of analyze_disruption -/

theorem analyze_success_fields (oracle : Int → DayResult) (tokenOk : Bool)
    (flight origin destination original_date reason : String)
    (hne : (searchAlternativeFlights oracle tokenOk origin destination original_date 3).2 ≠ []) :
    analyzeDisruption oracle tokenOk flight origin destination original_date reason =
      { success := true
        message := "Found " ++
          toString (searchAlternativeFlights oracle tokenOk origin destination
            original_date 3).2.length ++
          " alternative flights for disrupted flight " ++ flight
        original_flight := flight
        origin := some origin.toUpper
        destination := some destination.toUpper
        original_date := some original_date
        disruption_reason := reason
        total_alternatives := some (searchAlternativeFlights oracle tokenOk origin
          destination original_date 3).2.length
        price_range := some
          { min := listMinQ ((searchAlternativeFlights oracle tokenOk origin destination
              original_date 3).2.map fun f => f.price.total)
            max := listMaxQ ((searchAlternativeFlights oracle tokenOk origin destination
              original_date 3).2.map fun f => f.price.total)
            currency := "USD" }
        recommendations := buildRecommendations (searchAlternativeFlights oracle tokenOk
          origin destination original_date 3).2 } := by
  have hfalse : (searchAlternativeFlights oracle tokenOk origin destination
      original_date 3).2.isEmpty = false := by
    cases hl : (searchAlternativeFlights oracle tokenOk origin destination original_date 3).2
    · exact absurd hl hne
    · rfl
  simp only [analyzeDisruption, hfalse, Bool.false_eq_true, if_false]

theorem search_snd_ne_nil (oracle : Int → DayResult)
    (origin destination original_date : String) (d : Nat) (d0 : Int)
    (hDate : parseDate original_date = some d0)
    (hNoRaise : ∀ off ∈ offsetRange d, oracle off ≠ DayResult.raised)
    (hne : aggregateOf oracle d0 d ≠ []) :
    (searchAlternativeFlights oracle true origin destination original_date d).2 ≠ [] := by
  have hsearch := search_eq_of_no_raise oracle origin destination original_date d d0
    hDate hNoRaise
  have h2 : (searchAlternativeFlights oracle true origin destination original_date d).2 =
      (List.insertionSort altR (aggregateOf oracle d0 d)).take 10 := by rw [hsearch]
  rw [h2]
  intro hx
  rcases List.take_eq_nil_iff.mp hx with h10 | hsort
  · cases h10
  · have hlen := List.length_insertionSort altR (aggregateOf oracle d0 d)
    rw [hsort] at hlen
    exact hne (List.length_eq_zero.mp hlen.symm)

theorem search_snd_subset_aggregate (oracle : Int → DayResult)
    (origin destination original_date : String) (d : Nat) (d0 : Int)
    (hDate : parseDate original_date = some d0)
    (hNoRaise : ∀ off ∈ offsetRange d, oracle off ≠ DayResult.raised) :
    ∀ f ∈ (searchAlternativeFlights oracle true origin destination original_date d).2,
      f ∈ aggregateOf oracle d0 d := by
  have hsearch := search_eq_of_no_raise oracle origin destination original_date d d0
    hDate hNoRaise
  have h2 : (searchAlternativeFlights oracle true origin destination original_date d).2 =
      (List.insertionSort altR (aggregateOf oracle d0 d)).take 10 := by rw [hsearch]
  intro f hf
  rw [h2] at hf
  have hf2 := List.take_subset 10 _ hf
  exact (List.perm_insertionSort altR _).mem_iff.mp hf2

/-! ## The claims -/

/-- C1 (counterexample): on the spec's own scenario — every one of the
7 queried days returns exactly 3 offers, all 21 prices distinct — the
full aggregate candidate list has 21 candidates, but the returned
`total_alternatives` is 10 (the length of the already-truncated list),
not 21: `total_alternatives` does not reflect the pre-truncation
count. -/
theorem totalAlternatives_not_pretruncation_count :
    parseDate "2025-12-15" = some 20437 ∧
    (aggregateOf oracle21 20437 3).length = 21 ∧
    (analyzeDisruption oracle21 true "AA123" "JFK" "LAX" "2025-12-15"
      "cancellation").total_alternatives = some 10 ∧
    ¬ (analyzeDisruption oracle21 true "AA123" "JFK" "LAX" "2025-12-15"
      "cancellation").total_alternatives = some 21 := by
  decide

/-- C1 (amended): `total_alternatives` equals the length of the
*truncated* alternatives list, i.e. `min N 10` where `N` is the size of
the full aggregate: `_search_alternative_flights` truncates to 10
before returning, and `analyze_disruption` counts the returned list. -/
theorem totalAlternatives_eq_min_aggregate_ten (oracle : Int → DayResult)
    (flight origin destination original_date reason : String) (d0 : Int)
    (hDate : parseDate original_date = some d0)
    (hNoRaise : ∀ off ∈ offsetRange 3, oracle off ≠ DayResult.raised)
    (hne : aggregateOf oracle d0 3 ≠ []) :
    (analyzeDisruption oracle true flight origin destination original_date
      reason).total_alternatives = some (min (aggregateOf oracle d0 3).length 10) := by
  have haltsne := search_snd_ne_nil oracle origin destination original_date 3 d0
    hDate hNoRaise hne
  rw [analyze_success_fields oracle true flight origin destination original_date
    reason haltsne]
  have hsearch := search_eq_of_no_raise oracle origin destination original_date 3 d0
    hDate hNoRaise
  have h2 : (searchAlternativeFlights oracle true origin destination original_date 3).2 =
      (List.insertionSort altR (aggregateOf oracle d0 3)).take 10 := by rw [hsearch]
  simp only [h2, List.length_take, List.length_insertionSort]
  rw [Nat.min_comm]

/-- C1 witness: the amended count theorem evaluated on the 21-candidate
scenario gives `total_alternatives = min 21 10 = 10`. -/
theorem totalAlternatives_eq_min_aggregate_ten_witness :
    (analyzeDisruption oracle21 true "AA123" "JFK" "LAX" "2025-12-15"
      "cancellation").total_alternatives = some (min (aggregateOf oracle21 20437 3).length 10) :=
  totalAlternatives_eq_min_aggregate_ten oracle21 "AA123" "JFK" "LAX" "2025-12-15"
    "cancellation" 20437 (by decide) (by decide) (by decide)

/-- C2 (counterexample): with one offer already collected at offset −3
and a raised network error at offset −2, the whole scan is aborted: the
collected candidate is discarded (the finder returns `[]`) and only 2
of the 7 offsets were queried — candidates from other offsets are not
retained and the remaining offsets are not queried. -/
theorem raise_aborts_scan_counterexample :
    dayCandidates oracleRaiseMid 20437 (-3) ≠ [] ∧
    (searchAlternativeFlights oracleRaiseMid true "JFK" "LAX" "2025-12-15" 3).2 = [] ∧
    (searchAlternativeFlights oracleRaiseMid true "JFK" "LAX" "2025-12-15" 3).1.length = 2 := by
  decide

/-- C2 (amended): only a non-200 *response* degrades gracefully per
offset — when no day's call raises, every offset is queried, a non-200
day contributes zero candidates, and the other days' candidates are
kept; but a *raised* exception (network error, malformed payload) at
any offset aborts the entire scan and the finder returns `[]`. -/
theorem scan_failure_semantics (oracle : Int → DayResult)
    (origin destination original_date : String) (d : Nat) (d0 : Int)
    (hDate : parseDate original_date = some d0) :
    ((∀ off ∈ offsetRange d, oracle off ≠ DayResult.raised) →
      (searchAlternativeFlights oracle true origin destination original_date d).1 =
        (offsetRange d).map (mkQuery origin destination d0) ∧
      (searchAlternativeFlights oracle true origin destination original_date d).2 =
        (List.insertionSort altR (aggregateOf oracle d0 d)).take 10 ∧
      ∀ off : Int, oracle off = DayResult.badStatus → dayCandidates oracle d0 off = []) ∧
    ((∃ off ∈ offsetRange d, oracle off = DayResult.raised) →
      (searchAlternativeFlights oracle true origin destination original_date d).2 = []) := by
  constructor
  · intro hNoRaise
    have h := search_eq_of_no_raise oracle origin destination original_date d d0
      hDate hNoRaise
    exact ⟨by rw [h], by rw [h], fun off hx => by simp [dayCandidates, hx]⟩
  · exact search_snd_nil_of_raise oracle origin destination original_date d d0 hDate

/-- C2 witness: the amended failure-semantics theorem evaluated on a
scan where only offset 0 returns 200 and all other days return non-200
responses: all 7 queries are issued and the non-200 days contribute
nothing. -/
theorem scan_failure_semantics_witness :
    (searchAlternativeFlights oracleOneBad true "JFK" "LAX" "2025-12-15" 3).1 =
      (offsetRange 3).map (mkQuery "JFK" "LAX" 20437) ∧
    (searchAlternativeFlights oracleOneBad true "JFK" "LAX" "2025-12-15" 3).2 =
      (List.insertionSort altR (aggregateOf oracleOneBad 20437 3)).take 10 ∧
    ∀ off : Int, oracleOneBad off = DayResult.badStatus →
      dayCandidates oracleOneBad 20437 off = [] :=
  (scan_failure_semantics oracleOneBad "JFK" "LAX" "2025-12-15" 3 20437 (by decide)).1
    (by decide)

/-- C3 (counterexample): for the malformed date "15-12-2025" no
`ValidationError` propagates to the caller: `analyze_disruption`
returns the ordinary structured "no alternatives" dictionary (success =
false), indistinguishable from an empty scan, because the blanket
`except` in `_search_alternative_flights` swallows the `ValueError`. It
is true that no query is issued. -/
theorem malformed_date_no_hard_failure :
    parseDate "15-12-2025" = none ∧
    analyzeDisruption oracle21 true "AA123" "JFK" "LAX" "15-12-2025" "cancellation"
      = noAlternativesResult "AA123" "cancellation" ∧
    (searchAlternativeFlights oracle21 true "JFK" "LAX" "15-12-2025" 3).1 = [] := by
  decide

/-- C3 (amended): a malformed `original_date` makes the date parse fail
before the day loop, so no search query is issued; but the resulting
`ValueError` is caught by the finder's blanket exception handler, which
returns `[]`, so the caller receives the structured "no alternatives"
result — no validation error propagates as a hard failure. -/
theorem malformed_date_swallowed (oracle : Int → DayResult) (tokenOk : Bool)
    (flight origin destination original_date reason : String) (d : Nat)
    (hBad : parseDate original_date = none) :
    searchAlternativeFlights oracle tokenOk origin destination original_date d = ([], []) ∧
    analyzeDisruption oracle tokenOk flight origin destination original_date reason
      = noAlternativesResult flight reason := by
  refine ⟨search_eq_of_parse_none oracle tokenOk origin destination original_date d hBad, ?_⟩
  apply analyze_of_search_nil
  rw [search_eq_of_parse_none oracle tokenOk origin destination original_date 3 hBad]

/-- C3 witness: the amended theorem evaluated at the malformed date
"15-12-2025". -/
theorem malformed_date_swallowed_witness :
    searchAlternativeFlights oracle21 true "JFK" "LAX" "15-12-2025" 7 = ([], []) ∧
    analyzeDisruption oracle21 true "UA99" "JFK" "LAX" "15-12-2025" "delay"
      = noAlternativesResult "UA99" "delay" :=
  malformed_date_swallowed oracle21 true "UA99" "JFK" "LAX" "15-12-2025" "delay" 7
    (by decide)

/-- C4: when the scan completes (no day's call raises), the returned
alternatives list is the stable sort (`insertionSort` by the key
(|offset|, price)) of the aggregate candidate list truncated to its
first 10 elements; the sort is a permutation of the aggregate, and
adjacent returned elements satisfy |offset| ≤ |offset| and, at equal
|offset|, price ≤ price. -/
theorem alternatives_sorted_truncated (oracle : Int → DayResult)
    (origin destination original_date : String) (d : Nat) (d0 : Int)
    (hDate : parseDate original_date = some d0)
    (hNoRaise : ∀ off ∈ offsetRange d, oracle off ≠ DayResult.raised) :
    (searchAlternativeFlights oracle true origin destination original_date d).2 =
      (List.insertionSort altR (aggregateOf oracle d0 d)).take 10 ∧
    List.Perm (List.insertionSort altR (aggregateOf oracle d0 d)) (aggregateOf oracle d0 d) ∧
    List.Chain' (fun a b =>
        a.date_offset_days.natAbs ≤ b.date_offset_days.natAbs ∧
        (a.date_offset_days.natAbs = b.date_offset_days.natAbs →
          a.price.total ≤ b.price.total))
      (searchAlternativeFlights oracle true origin destination original_date d).2 := by
  have hsearch := search_eq_of_no_raise oracle origin destination original_date d d0
    hDate hNoRaise
  have h2 : (searchAlternativeFlights oracle true origin destination original_date d).2 =
      (List.insertionSort altR (aggregateOf oracle d0 d)).take 10 := by rw [hsearch]
  refine ⟨h2, List.perm_insertionSort altR _, ?_⟩
  rw [h2]
  have hs : List.Pairwise altR (List.insertionSort altR (aggregateOf oracle d0 d)) :=
    List.sorted_insertionSort altR _
  have ht : List.Pairwise altR
      ((List.insertionSort altR (aggregateOf oracle d0 d)).take 10) :=
    hs.sublist (List.take_sublist 10 _)
  exact ht.chain'.imp (fun a b h => altR_imp a b h)

/-- C4 witness: the sortedness theorem evaluated on the 21-candidate
scenario. -/
theorem alternatives_sorted_truncated_witness :
    (searchAlternativeFlights oracle21 true "JFK" "LAX" "2025-12-15" 3).2 =
      (List.insertionSort altR (aggregateOf oracle21 20437 3)).take 10 ∧
    List.Perm (List.insertionSort altR (aggregateOf oracle21 20437 3)) (aggregateOf oracle21 20437 3) ∧
    List.Chain' (fun a b =>
        a.date_offset_days.natAbs ≤ b.date_offset_days.natAbs ∧
        (a.date_offset_days.natAbs = b.date_offset_days.natAbs →
          a.price.total ≤ b.price.total))
      (searchAlternativeFlights oracle21 true "JFK" "LAX" "2025-12-15" 3).2 :=
  alternatives_sorted_truncated oracle21 "JFK" "LAX" "2025-12-15" 3 20437
    (by decide) (by decide)

/-- C5: if every one of the 7 day-queries returns a non-200 response or
a 200 response with zero offers, the aggregate is empty and
`analyze_disruption` returns exactly the structured "no alternatives
found" dictionary — no exception. -/
theorem empty_scan_no_alternatives_result (oracle : Int → DayResult)
    (flight origin destination original_date reason : String) (d0 : Int)
    (hDate : parseDate original_date = some d0)
    (hEmpty : ∀ off ∈ offsetRange 3,
      oracle off = DayResult.badStatus ∨ oracle off = DayResult.ok []) :
    analyzeDisruption oracle true flight origin destination original_date reason =
      { success := false
        message := "Unable to find alternative flights"
        original_flight := flight
        origin := none
        destination := none
        original_date := none
        disruption_reason := reason
        total_alternatives := none
        price_range := none
        recommendations := [] } := by
  have hNoRaise : ∀ off ∈ offsetRange 3, oracle off ≠ DayResult.raised := by
    intro off hoff
    rcases hEmpty off hoff with hx | hx <;> simp [hx]
  have hagg : aggregateOf oracle d0 3 = [] :=
    aggregateOver_nil_of_empty oracle d0 _ hEmpty
  have hsearch := search_eq_of_no_raise oracle origin destination original_date 3 d0
    hDate hNoRaise
  have hnil : (searchAlternativeFlights oracle true origin destination original_date 3).2
      = [] := by
    rw [hsearch]
    simp [hagg]
  exact analyze_of_search_nil oracle true flight origin destination original_date
    reason hnil

/-- C5 witness: the empty-scan theorem evaluated on an oracle where
every day returns a non-200 response. -/
theorem empty_scan_no_alternatives_result_witness :
    analyzeDisruption oracleAllBad true "AA123" "JFK" "LAX" "2025-12-15" "cancellation" =
      { success := false
        message := "Unable to find alternative flights"
        original_flight := "AA123"
        origin := none
        destination := none
        original_date := none
        disruption_reason := "cancellation"
        total_alternatives := none
        price_range := none
        recommendations := [] } :=
  empty_scan_no_alternatives_result oracleAllBad "AA123" "JFK" "LAX" "2025-12-15"
    "cancellation" 20437 (by decide) (by decide)

/-- C6: for a valid request (the date parses) whose `2d+1` day-calls
all return a response (none raises), the finder issues exactly `2d+1`
queries, one per offset in `[-d, d]` in ascending date order, each with
origin and destination upper-cased, `adults = 1`, `max = 3`,
currency USD, and departure date `original_date + offset`. -/
theorem scan_issues_queries (oracle : Int → DayResult)
    (origin destination original_date : String) (d : Nat) (d0 : Int)
    (hDate : parseDate original_date = some d0)
    (hNoRaise : ∀ off ∈ offsetRange d, oracle off ≠ DayResult.raised) :
    (searchAlternativeFlights oracle true origin destination original_date d).1 =
      (offsetRange d).map (mkQuery origin destination d0) ∧
    (searchAlternativeFlights oracle true origin destination original_date d).1.length
      = 2 * d + 1 ∧
    List.Chain' (fun q1 q2 => q1.departureDate < q2.departureDate)
      (searchAlternativeFlights oracle true origin destination original_date d).1 ∧
    ∀ q ∈ (searchAlternativeFlights oracle true origin destination original_date d).1,
      q.originLocationCode = origin.toUpper ∧
      q.destinationLocationCode = destination.toUpper ∧
      q.adults = 1 ∧ q.max = 3 ∧ q.currencyCode = "USD" ∧
      ∃ off : Int, -(d : Int) ≤ off ∧ off ≤ (d : Int) ∧ q.departureDate = d0 + off := by
  have hsearch := search_eq_of_no_raise oracle origin destination original_date d d0
    hDate hNoRaise
  have hq : (searchAlternativeFlights oracle true origin destination original_date d).1 =
      (offsetRange d).map (mkQuery origin destination d0) := by rw [hsearch]
  refine ⟨hq, ?_, ?_, ?_⟩
  · rw [hq, List.length_map, offsetRange_length]
  · rw [hq]
    have hp0 : List.Pairwise (fun a b : Nat => a < b) (List.range (2 * d + 1)) :=
      List.pairwise_lt_range _
    have hp1 : List.Pairwise (fun a b : Int => a < b) (offsetRange d) := by
      unfold offsetRange
      exact hp0.map _ (fun a b hab => by omega)
    have hp2 : List.Pairwise (fun q1 q2 : Query => q1.departureDate < q2.departureDate)
        ((offsetRange d).map (mkQuery origin destination d0)) := by
      exact hp1.map _ (fun a b hab => by
        show d0 + a < d0 + b
        omega)
    exact hp2.chain'
  · intro q hq'
    rw [hq] at hq'
    obtain ⟨off, hoff, rfl⟩ := List.mem_map.mp hq'
    exact ⟨rfl, rfl, rfl, rfl, rfl, off, (mem_offsetRange.mp hoff).1,
      (mem_offsetRange.mp hoff).2, rfl⟩

/-- C6 witness: the query-issuing theorem evaluated on the
21-candidate scenario with `d = 3`: 7 queries in ascending order. -/
theorem scan_issues_queries_witness :
    (searchAlternativeFlights oracle21 true "JFK" "LAX" "2025-12-15" 3).1 =
      (offsetRange 3).map (mkQuery "JFK" "LAX" 20437) ∧
    (searchAlternativeFlights oracle21 true "JFK" "LAX" "2025-12-15" 3).1.length
      = 2 * 3 + 1 ∧
    List.Chain' (fun q1 q2 => q1.departureDate < q2.departureDate)
      (searchAlternativeFlights oracle21 true "JFK" "LAX" "2025-12-15" 3).1 ∧
    ∀ q ∈ (searchAlternativeFlights oracle21 true "JFK" "LAX" "2025-12-15" 3).1,
      q.originLocationCode = "JFK".toUpper ∧
      q.destinationLocationCode = "LAX".toUpper ∧
      q.adults = 1 ∧ q.max = 3 ∧ q.currencyCode = "USD" ∧
      ∃ off : Int, -(3 : Int) ≤ off ∧ off ≤ (3 : Int) ∧ q.departureDate = 20437 + off :=
  scan_issues_queries oracle21 "JFK" "LAX" "2025-12-15" 3 20437 (by decide) (by decide)

/-- C7: in every successful result the categories appear in the fixed
order same-day, next-day, alternative-dates (as a sublist of that
3-element sequence), each emitted category has a non-empty offer list,
and the caps hold: Same Day ≤ 3, Next Day ≤ 3, Alternative Dates ≤ 4. -/
theorem categories_caps_order (oracle : Int → DayResult) (tokenOk : Bool)
    (flight origin destination original_date reason : String)
    (hs : (analyzeDisruption oracle tokenOk flight origin destination original_date
      reason).success = true) :
    List.Sublist
      ((analyzeDisruption oracle tokenOk flight origin destination original_date
        reason).recommendations.map (fun c => c.category))
      ["Same Day Alternatives", "Next Day Options", "Alternative Dates"] ∧
    ∀ c ∈ (analyzeDisruption oracle tokenOk flight origin destination original_date
        reason).recommendations,
      c.flights ≠ [] ∧
      (c.category = "Same Day Alternatives" → c.flights.length ≤ 3) ∧
      (c.category = "Next Day Options" → c.flights.length ≤ 3) ∧
      (c.category = "Alternative Dates" → c.flights.length ≤ 4) := by
  by_cases hne : (searchAlternativeFlights oracle tokenOk origin destination
      original_date 3).2 = []
  · rw [analyze_of_search_nil oracle tokenOk flight origin destination original_date
      reason hne] at hs
    simp [noAlternativesResult] at hs
  · rw [analyze_success_fields oracle tokenOk flight origin destination original_date
      reason hne]
    refine ⟨buildRecommendations_order _, ?_⟩
    intro c hc
    rcases mem_buildRecommendations hc with ⟨rfl, hb⟩ | ⟨rfl, hb⟩ | ⟨rfl, hb⟩
    · refine ⟨?_, fun _ => List.length_take_le 3 _,
        fun hx => by simp [sameDayCat] at hx, fun hx => by simp [sameDayCat] at hx⟩
      show (sameDayBucket _).take 3 ≠ []
      intro hnil
      rcases List.take_eq_nil_iff.mp hnil with h3 | hbnil
      · cases h3
      · exact hb hbnil
    · refine ⟨?_, fun hx => by simp [nextDayCat] at hx,
        fun _ => List.length_take_le 3 _, fun hx => by simp [nextDayCat] at hx⟩
      show (nextDayBucket _).take 3 ≠ []
      intro hnil
      rcases List.take_eq_nil_iff.mp hnil with h3 | hbnil
      · cases h3
      · exact hb hbnil
    · refine ⟨?_, fun hx => by simp [altDatesCat] at hx,
        fun hx => by simp [altDatesCat] at hx, fun _ => List.length_take_le 4 _⟩
      show (otherDaysBucket _).take 4 ≠ []
      intro hnil
      rcases List.take_eq_nil_iff.mp hnil with h4 | hbnil
      · cases h4
      · exact hb hbnil

/-- C7 witness: the category-shape theorem evaluated on the
21-candidate scenario (whose result is successful). -/
theorem categories_caps_order_witness :
    List.Sublist
      ((analyzeDisruption oracle21 true "AA123" "JFK" "LAX" "2025-12-15"
        "cancellation").recommendations.map (fun c => c.category))
      ["Same Day Alternatives", "Next Day Options", "Alternative Dates"] ∧
    ∀ c ∈ (analyzeDisruption oracle21 true "AA123" "JFK" "LAX" "2025-12-15"
        "cancellation").recommendations,
      c.flights ≠ [] ∧
      (c.category = "Same Day Alternatives" → c.flights.length ≤ 3) ∧
      (c.category = "Next Day Options" → c.flights.length ≤ 3) ∧
      (c.category = "Alternative Dates" → c.flights.length ≤ 4) :=
  categories_caps_order oracle21 true "AA123" "JFK" "LAX" "2025-12-15" "cancellation"
    (by decide)

/-- C8 (counterexample): on the 21-candidate scenario the code computes
`price_range` over the already-truncated top-10 list: the result is
{min 100, max 200}, yet the full pre-truncation aggregate contains the
price 305 > 200, so the maximum is not taken over the full aggregate as
the claim states. -/
theorem price_range_not_over_full_aggregate :
    (analyzeDisruption oracle21 true "AA123" "JFK" "LAX" "2025-12-15"
      "cancellation").price_range = some { min := 100, max := 200, currency := "USD" } ∧
    (305 : ℚ) ∈ (aggregateOf oracle21 20437 3).map (fun f => f.price.total) ∧
    ¬ ((305 : ℚ) ≤ (200 : ℚ)) := by
  decide

/-- C8 (amended): `price_range` is the min and max over the prices of
the *truncated* (top-10) alternatives list, with currency USD; still
`min ≤ max`, and both values are prices of candidates of the full
pre-truncation aggregate (the truncated list is a subset of it). -/
theorem price_range_over_truncated (oracle : Int → DayResult)
    (flight origin destination original_date reason : String) (d0 : Int)
    (hDate : parseDate original_date = some d0)
    (hNoRaise : ∀ off ∈ offsetRange 3, oracle off ≠ DayResult.raised)
    (hne : aggregateOf oracle d0 3 ≠ []) :
    (analyzeDisruption oracle true flight origin destination original_date
        reason).price_range
      = some
        { min := listMinQ ((searchAlternativeFlights oracle true origin destination
            original_date 3).2.map fun f => f.price.total)
          max := listMaxQ ((searchAlternativeFlights oracle true origin destination
            original_date 3).2.map fun f => f.price.total)
          currency := "USD" } ∧
    listMinQ ((searchAlternativeFlights oracle true origin destination
        original_date 3).2.map fun f => f.price.total)
      ≤ listMaxQ ((searchAlternativeFlights oracle true origin destination
        original_date 3).2.map fun f => f.price.total) ∧
    listMinQ ((searchAlternativeFlights oracle true origin destination
        original_date 3).2.map fun f => f.price.total)
      ∈ (aggregateOf oracle d0 3).map (fun f => f.price.total) ∧
    listMaxQ ((searchAlternativeFlights oracle true origin destination
        original_date 3).2.map fun f => f.price.total)
      ∈ (aggregateOf oracle d0 3).map (fun f => f.price.total) := by
  have haltsne := search_snd_ne_nil oracle origin destination original_date 3 d0
    hDate hNoRaise hne
  have hPne : ((searchAlternativeFlights oracle true origin destination
      original_date 3).2.map fun f => f.price.total) ≠ [] := by
    intro hx
    apply haltsne
    simpa using hx
  refine ⟨?_, listMinQ_le (listMaxQ_mem hPne), ?_, ?_⟩
  · rw [analyze_success_fields oracle true flight origin destination original_date
      reason haltsne]
  · obtain ⟨f, hf, hfe⟩ := List.mem_map.mp (listMinQ_mem hPne)
    exact List.mem_map.mpr ⟨f, search_snd_subset_aggregate oracle origin destination
      original_date 3 d0 hDate hNoRaise f hf, hfe⟩
  · obtain ⟨f, hf, hfe⟩ := List.mem_map.mp (listMaxQ_mem hPne)
    exact List.mem_map.mpr ⟨f, search_snd_subset_aggregate oracle origin destination
      original_date 3 d0 hDate hNoRaise f hf, hfe⟩

/-- C8 witness: the amended price-range theorem evaluated on the
21-candidate scenario. -/
theorem price_range_over_truncated_witness :
    (analyzeDisruption oracle21 true "AA123" "JFK" "LAX" "2025-12-15"
        "cancellation").price_range
      = some
        { min := listMinQ ((searchAlternativeFlights oracle21 true "JFK" "LAX"
            "2025-12-15" 3).2.map fun f => f.price.total)
          max := listMaxQ ((searchAlternativeFlights oracle21 true "JFK" "LAX"
            "2025-12-15" 3).2.map fun f => f.price.total)
          currency := "USD" } ∧
    listMinQ ((searchAlternativeFlights oracle21 true "JFK" "LAX"
        "2025-12-15" 3).2.map fun f => f.price.total)
      ≤ listMaxQ ((searchAlternativeFlights oracle21 true "JFK" "LAX"
        "2025-12-15" 3).2.map fun f => f.price.total) ∧
    listMinQ ((searchAlternativeFlights oracle21 true "JFK" "LAX"
        "2025-12-15" 3).2.map fun f => f.price.total)
      ∈ (aggregateOf oracle21 20437 3).map (fun f => f.price.total) ∧
    listMaxQ ((searchAlternativeFlights oracle21 true "JFK" "LAX"
        "2025-12-15" 3).2.map fun f => f.price.total)
      ∈ (aggregateOf oracle21 20437 3).map (fun f => f.price.total) :=
  price_range_over_truncated oracle21 "AA123" "JFK" "LAX" "2025-12-15" "cancellation"
    20437 (by decide) (by decide) (by decide)

/-- C9: a returned candidate departing exactly one day *before* the
original date (offset −1) falls into none of the three buckets
(offset = 0, offset = 1, |offset| > 1): it appears in no
recommendation category, although it is counted in
`total_alternatives` (which is the length of the truncated list it
belongs to). -/
theorem offset_minus_one_uncategorized (oracle : Int → DayResult) (tokenOk : Bool)
    (flight origin destination original_date reason : String) (f : FlightInfo)
    (hf : f ∈ (searchAlternativeFlights oracle tokenOk origin destination
      original_date 3).2)
    (hoff : f.date_offset_days = -1) :
    (analyzeDisruption oracle tokenOk flight origin destination original_date
      reason).success = true ∧
    (analyzeDisruption oracle tokenOk flight origin destination original_date
      reason).total_alternatives
      = some (searchAlternativeFlights oracle tokenOk origin destination
        original_date 3).2.length ∧
    ∀ c ∈ (analyzeDisruption oracle tokenOk flight origin destination original_date
        reason).recommendations,
      f ∉ c.flights := by
  have hne := List.ne_nil_of_mem hf
  rw [analyze_success_fields oracle tokenOk flight origin destination original_date
    reason hne]
  exact ⟨rfl, rfl, fun c hc => buildRecommendations_no_minus_one hc hoff⟩

/-- C9 witness: the bucket-gap theorem evaluated on an oracle with one
offer at offset 0 and one at offset −1: the offset −1 candidate is in
the returned list but in no category. -/
theorem offset_minus_one_uncategorized_witness :
    (analyzeDisruption oracleNeg1 true "AA123" "JFK" "LAX" "2025-12-15"
      "cancellation").success = true ∧
    (analyzeDisruption oracleNeg1 true "AA123" "JFK" "LAX" "2025-12-15"
      "cancellation").total_alternatives
      = some (searchAlternativeFlights oracleNeg1 true "JFK" "LAX"
        "2025-12-15" 3).2.length ∧
    ∀ c ∈ (analyzeDisruption oracleNeg1 true "AA123" "JFK" "LAX" "2025-12-15"
        "cancellation").recommendations,
      flightNeg1 ∉ c.flights :=
  offset_minus_one_uncategorized oracleNeg1 true "AA123" "JFK" "LAX" "2025-12-15"
    "cancellation" flightNeg1 (by decide) (by decide)

/-- C10: `analyze_disruption` is total and always returns a dictionary
carrying the `success`, `original_flight`, `disruption_reason` and
`recommendations` keys (the result type carries them in every shape),
and whenever an internal step throws — token/credential acquisition,
date parsing, or response processing (a raised day call) — the result
has `success = false` (and empty recommendations). -/
theorem analyzeDisruption_structured_total (oracle : Int → DayResult) (tokenOk : Bool)
    (flight origin destination original_date reason : String) :
    (analyzeDisruption oracle tokenOk flight origin destination original_date
      reason).original_flight = flight ∧
    (analyzeDisruption oracle tokenOk flight origin destination original_date
      reason).disruption_reason = reason ∧
    ((tokenOk = false ∨ parseDate original_date = none ∨
        ∃ off ∈ offsetRange 3, oracle off = DayResult.raised) →
      (analyzeDisruption oracle tokenOk flight origin destination original_date
        reason).success = false ∧
      (analyzeDisruption oracle tokenOk flight origin destination original_date
        reason).recommendations = []) := by
  have hfields :
      (analyzeDisruption oracle tokenOk flight origin destination original_date
        reason).original_flight = flight ∧
      (analyzeDisruption oracle tokenOk flight origin destination original_date
        reason).disruption_reason = reason := by
    by_cases hne : (searchAlternativeFlights oracle tokenOk origin destination
        original_date 3).2 = []
    · rw [analyze_of_search_nil oracle tokenOk flight origin destination original_date
        reason hne]
      exact ⟨rfl, rfl⟩
    · rw [analyze_success_fields oracle tokenOk flight origin destination original_date
        reason hne]
      exact ⟨rfl, rfl⟩
  refine ⟨hfields.1, hfields.2, ?_⟩
  intro h
  have hnil : (searchAlternativeFlights oracle tokenOk origin destination
      original_date 3).2 = [] := by
    rcases h with htok | hdate | hraise
    · rw [htok, search_eq_of_token_fail]
    · rw [search_eq_of_parse_none oracle tokenOk origin destination original_date 3 hdate]
    · cases tokenOk with
      | false => rw [search_eq_of_token_fail]
      | true =>
        cases hp : parseDate original_date with
        | none =>
          rw [search_eq_of_parse_none oracle true origin destination original_date 3 hp]
        | some d0 =>
          exact search_snd_nil_of_raise oracle origin destination original_date 3 d0
            hp hraise
  rw [analyze_of_search_nil oracle tokenOk flight origin destination original_date
    reason hnil]
  exact ⟨rfl, rfl⟩

/-- C10 witness: the totality theorem evaluated at a failing token
acquisition: the result still carries the four keys and has
`success = false`. -/
theorem analyzeDisruption_structured_total_witness :
    (analyzeDisruption oracle21 false "AA123" "JFK" "LAX" "2025-12-15"
      "cancellation").original_flight = "AA123" ∧
    (analyzeDisruption oracle21 false "AA123" "JFK" "LAX" "2025-12-15"
      "cancellation").disruption_reason = "cancellation" ∧
    (analyzeDisruption oracle21 false "AA123" "JFK" "LAX" "2025-12-15"
      "cancellation").success = false ∧
    (analyzeDisruption oracle21 false "AA123" "JFK" "LAX" "2025-12-15"
      "cancellation").recommendations = [] :=
  have h := analyzeDisruption_structured_total oracle21 false "AA123" "JFK" "LAX"
    "2025-12-15" "cancellation"
  ⟨h.1, h.2.1, (h.2.2 (Or.inl rfl)).1, (h.2.2 (Or.inl rfl)).2⟩
